import Mathlib

/-!
Verification of the PyCosworth acquisition core.

This file shallowly embeds the two source files of the repository —
`PyCosworth.py` (the coordinator process) and `iomodules/SerialIO.py`
(the acquisition scheduler and demo-data generator) — and proves the
behavioural properties claimed of them.

Modelling conventions:
* Python floats carrying sensor values, refresh intervals and wall-clock
  times are modelled as exact rationals (`ℚ`).
* Wall-clock time is discretised per tick: every call to
  `timeit.default_timer()` inside one scheduler tick returns the same
  instant `now`, except the tick-start reading `sample_start`, which is
  passed separately.
* Python dicts keyed by sensor id are modelled as functions
  `String → Option _` updated by overwrite (later assignments win,
  exactly as in a dict).
* Queues are modelled as lists; `put` appends at the tail, so list order
  is FIFO order.
-/

namespace PyCosworth

/-- A sensor entry of `settings.SENSORS`: id, refresh interval in
seconds, and the value range used by the demo generator. -/
structure Sensor where
  sensorId : String
  refresh : ℚ
  minValue : ℚ
  maxValue : ℚ
deriving DecidableEq, Repr

/-- A value carried in a sample message: demo data is numeric, the live
(stub) transport produces the raw string "0x0", and sensors registered
but never sampled hold a null placeholder. -/
inductive EcuValue where
  | null : EcuValue
  | num : ℚ → EcuValue
  | raw : String → EcuValue
deriving DecidableEq, Repr

/-- The message-kind discriminant `d[0]` of a tuple on the receive
queue: `settings.TYPE_DATA`, `settings.TYPE_ERROR`, or anything else. -/
inductive MsgKind where
  | data : MsgKind
  | error : MsgKind
  | unknown : MsgKind
deriving DecidableEq, Repr

/-- The 5-tuple `(message_type, sensorId, value, counter, sample_time)`
put on `receiveQueue` by `SerialIO` and drained by the coordinator. -/
structure SampleMsg where
  kind : MsgKind
  sensorId : String
  value : EcuValue
  counter : Nat
  time : ℚ
deriving DecidableEq, Repr

/-- One entry of the `demo_sensor` dict: the precomputed value list
`demo_data` and the cursor `demo_data_idx`. -/
structure DemoSeq where
  demo_data_idx : Nat
  demo_data : List ℚ
deriving DecidableEq, Repr

/-! ## Demo data generation (`SerialIO.setupDemoSensors`) -/

/-- The first loop of `setupDemoSensors`: `DEMO_STEPS` iterations of
`append d_value; d_value += demo_step_size`.  Returns the appended
values together with the final `d_value`. -/
def ascendLoop (step : ℚ) : Nat → ℚ → List ℚ × ℚ
  | 0, v => ([], v)
  | n + 1, v =>
    let rest := ascendLoop step n (v + step)
    (v :: rest.1, rest.2)

/-- The second loop of `setupDemoSensors`: `DEMO_STEPS` iterations of
`d_value = d_value - demo_step_size; append d_value`.  Returns the
appended values together with the final `d_value`. -/
def descendLoop (step : ℚ) : Nat → ℚ → List ℚ × ℚ
  | 0, v => ([], v)
  | n + 1, v =>
    let rest := descendLoop step n (v - step)
    ((v - step) :: rest.1, rest.2)

/-- The demo sequence `setupDemoSensors` builds for one sensor:
`demo_step_size = maxValue / DEMO_STEPS`, an ascending loop starting at
`minValue`, then a descending loop continuing from the ascent's final
`d_value`; the cursor starts at 0. -/
def setupDemoSensor (demoSteps : Nat) (s : Sensor) : DemoSeq :=
  let step := s.maxValue / (demoSteps : ℚ)
  let asc := ascendLoop step demoSteps s.minValue
  let desc := descendLoop step demoSteps asc.2
  { demo_data_idx := 0, demo_data := asc.1 ++ desc.1 }

/-- One dict assignment `demo_sensor[sensor['sensorId']] = ...` of the
`setupDemoSensors` loop. -/
def demoAssign (demoSteps : Nat) (m : String → Option DemoSeq) (s : Sensor) :
    String → Option DemoSeq :=
  fun k => if k = s.sensorId then some (setupDemoSensor demoSteps s) else m k

/-- The whole `demo_sensor` dict built by `setupDemoSensors`: one entry
per sensor of `settings.SENSORS`, keyed by sensor id, later entries
overwriting earlier ones as in a Python dict. -/
def setupDemoSensors (demoSteps : Nat) (sensors : List Sensor) :
    String → Option DemoSeq :=
  sensors.foldl (demoAssign demoSteps) (fun _ => none)

/-! ### Closed forms for the two generation loops -/

theorem ascendLoop_fst (step : ℚ) :
    ∀ (n : Nat) (v : ℚ),
      (ascendLoop step n v).1 = (List.range n).map (fun i : Nat => v + (i : ℚ) * step)
  | 0, v => by simp [ascendLoop]
  | n + 1, v => by
    rw [List.range_succ_eq_map, List.map_cons, List.map_map]
    simp only [ascendLoop]
    rw [ascendLoop_fst step n (v + step)]
    congr 1
    · norm_num
    · apply List.map_congr_left
      intro i _
      simp only [Function.comp_apply, Nat.succ_eq_add_one]
      push_cast
      ring

theorem ascendLoop_snd (step : ℚ) :
    ∀ (n : Nat) (v : ℚ), (ascendLoop step n v).2 = v + n * step
  | 0, v => by simp [ascendLoop]
  | n + 1, v => by
    simp only [ascendLoop, ascendLoop_snd step n (v + step)]
    push_cast
    ring

theorem descendLoop_fst (step : ℚ) :
    ∀ (n : Nat) (v : ℚ),
      (descendLoop step n v).1 = (List.range n).map (fun i : Nat => v - ((i : ℚ) + 1) * step)
  | 0, v => by simp [descendLoop]
  | n + 1, v => by
    rw [List.range_succ_eq_map, List.map_cons, List.map_map]
    simp only [descendLoop]
    rw [descendLoop_fst step n (v - step)]
    congr 1
    · norm_num
    · apply List.map_congr_left
      intro i _
      simp only [Function.comp_apply, Nat.succ_eq_add_one]
      push_cast
      ring

theorem descendLoop_snd (step : ℚ) :
    ∀ (n : Nat) (v : ℚ), (descendLoop step n v).2 = v - n * step
  | 0, v => by simp [descendLoop]
  | n + 1, v => by
    simp only [descendLoop, descendLoop_snd step n (v - step)]
    push_cast
    ring

theorem setupDemoSensor_length (demoSteps : Nat) (s : Sensor) :
    (setupDemoSensor demoSteps s).demo_data.length = 2 * demoSteps := by
  simp only [setupDemoSensor, List.length_append, ascendLoop_fst, descendLoop_fst,
    List.length_map, List.length_range]
  omega

theorem setupDemoSensor_take (demoSteps : Nat) (s : Sensor) :
    (setupDemoSensor demoSteps s).demo_data.take demoSteps
      = (List.range demoSteps).map
          (fun i : Nat => s.minValue + (i : ℚ) * (s.maxValue / (demoSteps : ℚ))) := by
  have hlen : ((ascendLoop (s.maxValue / (demoSteps : ℚ)) demoSteps s.minValue).1).length
      = demoSteps := by
    rw [ascendLoop_fst]
    simp
  simp only [setupDemoSensor]
  rw [List.take_append_of_le_length (le_of_eq hlen.symm), List.take_of_length_le (le_of_eq hlen),
    ascendLoop_fst]

theorem setupDemoSensor_drop (demoSteps : Nat) (s : Sensor) :
    (setupDemoSensor demoSteps s).demo_data.drop demoSteps
      = (List.range demoSteps).map
          (fun i : Nat =>
            s.minValue + (demoSteps : ℚ) * (s.maxValue / (demoSteps : ℚ))
              - ((i : ℚ) + 1) * (s.maxValue / (demoSteps : ℚ))) := by
  have hlen : ((ascendLoop (s.maxValue / (demoSteps : ℚ)) demoSteps s.minValue).1).length
      = demoSteps := by
    rw [ascendLoop_fst]
    simp
  simp only [setupDemoSensor]
  rw [List.drop_append_of_le_length (le_of_eq hlen.symm), List.drop_of_length_le (le_of_eq hlen),
    List.nil_append, descendLoop_fst, ascendLoop_snd]

/-- C4: the demo sequence for a sensor has exactly `2 × DEMO_STEPS`
values: `DEMO_STEPS` ascending values starting at `minValue` with
additive step `maxValue / DEMO_STEPS`, followed by `DEMO_STEPS`
descending values subtracting the same step from the ascent's endpoint;
for a sensor with `minValue = 0`, `maxValue = 8000`, `DEMO_STEPS = 4`,
the first four demo values are 0, 2000, 4000, 6000. -/
theorem demo_sequence_shape (demoSteps : Nat) (s : Sensor) :
    (setupDemoSensor demoSteps s).demo_data.length = 2 * demoSteps
    ∧ (setupDemoSensor demoSteps s).demo_data.take demoSteps
        = (List.range demoSteps).map
            (fun i : Nat => s.minValue + (i : ℚ) * (s.maxValue / (demoSteps : ℚ)))
    ∧ (setupDemoSensor demoSteps s).demo_data.drop demoSteps
        = (List.range demoSteps).map
            (fun i : Nat =>
              s.minValue + (demoSteps : ℚ) * (s.maxValue / (demoSteps : ℚ))
                - ((i : ℚ) + 1) * (s.maxValue / (demoSteps : ℚ)))
    ∧ (setupDemoSensor 4 ⟨"RPM", 1/20, 0, 8000⟩).demo_data.take 4
        = [0, 2000, 4000, 6000] :=
  ⟨setupDemoSensor_length demoSteps s, setupDemoSensor_take demoSteps s,
    setupDemoSensor_drop demoSteps s, by
      rw [setupDemoSensor_take 4 ⟨"RPM", 1/20, 0, 8000⟩]
      norm_num [List.range_succ]⟩

theorem descendLoop_getLast (step : ℚ) :
    ∀ (n : Nat) (v : ℚ), 0 < n →
      (descendLoop step n v).1.getLast? = some (v - n * step) := by
  intro n v hn
  rw [descendLoop_fst, List.getLast?_eq_getElem?]
  have hlen : ((List.range n).map
      (fun i : Nat => v - ((i : ℚ) + 1) * step)).length = n := by simp
  rw [hlen, List.getElem?_map, List.getElem?_range (Nat.sub_lt hn Nat.one_pos)]
  simp only [Option.map_some']
  congr 1
  have hc : ((n - 1 : Nat) : ℚ) = (n : ℚ) - 1 := by
    rw [Nat.cast_sub hn]
    norm_num
  rw [hc]
  ring

/-- C5 (amended): under exact rational arithmetic, for every sensor and
every positive `DEMO_STEPS`, the final value of the demo sequence is
exactly `minValue` — for every `minValue`, zero or not: the descending
loop subtracts the step once before each append, so after `DEMO_STEPS`
subtractions it lands back on the ascent's starting point. -/
theorem demo_final_value (s : Sensor) (demoSteps : Nat) (h : 0 < demoSteps) :
    (setupDemoSensor demoSteps s).demo_data.getLast? = some s.minValue := by
  simp only [setupDemoSensor]
  have hdesc : (descendLoop (s.maxValue / (demoSteps : ℚ)) demoSteps
      (ascendLoop (s.maxValue / (demoSteps : ℚ)) demoSteps s.minValue).2).1 ≠ [] := by
    rw [descendLoop_fst]
    simp [List.range_eq_nil]
    omega
  rw [List.getLast?_append_of_ne_nil _ hdesc,
    descendLoop_getLast _ _ _ h, ascendLoop_snd]
  congr 1
  ring

/-- Witness for `demo_final_value` at a concrete sensor. -/
theorem demo_final_value_witness :
    0 < 4 ∧ (setupDemoSensor 4 ⟨"RPM", 1/20, 1, 8000⟩).demo_data.getLast? = some 1 :=
  ⟨by norm_num, demo_final_value ⟨"RPM", 1/20, 1, 8000⟩ 4 (by norm_num)⟩

/-- C5 counterexample: a sensor with `minValue = 1 ≠ 0` whose demo
sequence nevertheless ends exactly on `minValue`, refuting the claim
that the descent returns to `minValue` only when `minValue = 0`. -/
theorem demo_final_nonzero_min_counterexample :
    (Sensor.mk "RPM" (1/20) 1 8000).minValue ≠ 0
    ∧ (setupDemoSensor 4 (Sensor.mk "RPM" (1/20) 1 8000)).demo_data.getLast?
        = some (Sensor.mk "RPM" (1/20) 1 8000).minValue := by
  constructor
  · norm_num
  · simp only [setupDemoSensor, ascendLoop, descendLoop]
    norm_num

/-! ## Cursor advance (tail of the demo branch of the sensor loop) -/

/-- The cursor update at the end of the demo branch of the sensor loop:
increment while strictly below `DEMO_STEPS * 2 - 1`, wrap to 0 at the
last index. -/
def advanceIdx (demoSteps : Nat) (idx : Nat) : Nat :=
  if idx < demoSteps * 2 - 1 then idx + 1 else 0

theorem advanceIdx_iterate_aux (demoSteps : Nat) :
    ∀ k, k ≤ demoSteps * 2 - 1 → (advanceIdx demoSteps)^[k] 0 = k
  | 0, _ => rfl
  | k + 1, h => by
    rw [Function.iterate_succ_apply', advanceIdx_iterate_aux demoSteps k (by omega)]
    unfold advanceIdx
    rw [if_pos (by omega)]

theorem advanceIdx_iterate (demoSteps : Nat) :
    (advanceIdx demoSteps)^[demoSteps * 2] 0 = 0 := by
  rcases Nat.eq_zero_or_pos demoSteps with h | h
  · subst h
    rfl
  · have h2 : demoSteps * 2 = (demoSteps * 2 - 1) + 1 := by omega
    rw [h2, Function.iterate_succ_apply',
      advanceIdx_iterate_aux demoSteps (demoSteps * 2 - 1) le_rfl]
    unfold advanceIdx
    rw [if_neg (by omega)]

/-- C9: the cursor advance increments the cursor by one while strictly
below `2 × DEMO_STEPS − 1` and wraps it to 0 at the last index, so
`2 × DEMO_STEPS` advances starting from 0 return the cursor to 0; and
the generated sequence is deterministic in
`(minValue, maxValue, DEMO_STEPS)`. -/
theorem demo_cursor_wraps (demoSteps : Nat) :
    (∀ idx, idx < demoSteps * 2 - 1 → advanceIdx demoSteps idx = idx + 1)
    ∧ advanceIdx demoSteps (demoSteps * 2 - 1) = 0
    ∧ (advanceIdx demoSteps)^[demoSteps * 2] 0 = 0
    ∧ (∀ s t : Sensor, s.minValue = t.minValue → s.maxValue = t.maxValue →
        (setupDemoSensor demoSteps s).demo_data
          = (setupDemoSensor demoSteps t).demo_data) := by
  refine ⟨?_, ?_, advanceIdx_iterate demoSteps, ?_⟩
  · intro idx hidx
    unfold advanceIdx
    rw [if_pos hidx]
  · unfold advanceIdx
    rw [if_neg (by omega)]
  · intro s t hmin hmax
    simp only [setupDemoSensor, hmin, hmax]

/-- Witness for `demo_cursor_wraps` with `DEMO_STEPS = 4`. -/
theorem demo_cursor_wraps_witness :
    advanceIdx 4 3 = 4 ∧ advanceIdx 4 7 = 0 ∧ (advanceIdx 4)^[8] 0 = 0 := by
  have h := demo_cursor_wraps 4
  exact ⟨h.1 3 (by norm_num), h.2.1, h.2.2.1⟩

/-! ## Control messages (`libs/ControlData.py` is not under `src/`) -/

/-- The press-duration classes `settings.BUTTON_SHORT`,
`settings.BUTTON_LONG` and the no-press default. -/
inductive PressDuration where
  | short : PressDuration
  | long : PressDuration
  | noPress : PressDuration
deriving DecidableEq, Repr

/-- Modelled from the spec: `libs/ControlData.py` is not under `src/`.
A control message carries a target worker id (or the broadcast
sentinel, modelled as `none`), the button field tested for truthiness
by `cdata.button`, and a press-duration class. -/
structure ControlData where
  targetWorkerId : Option Nat
  button : Bool
  duration : PressDuration
deriving DecidableEq, Repr

/-- Modelled from the spec: `isMine(w)` decides whether the message is
addressed to worker `w` — true when the target is `w` or the broadcast
sentinel. -/
def ControlData.isMine (cdata : ControlData) (w : Nat) : Bool :=
  match cdata.targetWorkerId with
  | some t => t == w
  | none => true

/-! ## The acquisition scheduler (`SerialIO.SerialIO`) -/

/-- The pacing-sensor search of `SerialIO` (lines 83–89): fold over
`settings.SENSORS` starting from `highest_sample_rate = 99` and
`sample_counter_id = ""`, replacing the best pair whenever a sensor's
refresh interval is strictly below the best so far. -/
def findPacingAux : List Sensor → ℚ × String → ℚ × String
  | [], acc => acc
  | s :: rest, acc =>
    findPacingAux rest (if s.refresh < acc.1 then (s.refresh, s.sensorId) else acc)

/-- `(highest_sample_rate, sample_counter_id)` as computed by
`SerialIO` before entering its sample loop. -/
def findPacing (sensors : List Sensor) : ℚ × String :=
  findPacingAux sensors (99, "")

/-- The mutable state of the `SerialIO` process inside its sample loop:
the demo flag, the (stub, never-true) live-connection flag, the
`demo_sensor` dict, the per-sensor timers, the global sample counter,
the last cycle latency and the receive queue seen as the list of
messages put so far. -/
structure SerialState where
  SERIALIO_DEMO : Bool
  connected : Bool
  demo_sensor : String → Option DemoSeq
  sensor_timer : String → ℚ
  counter : Nat
  sample_time : ℚ
  receiveQueue : List SampleMsg

/-- The emission part of one iteration of the sensor loop, after the
pacing-counter update: demo mode reads the current demo value, puts a
DATA tuple, resets the sensor's timer and advances the cursor; live
mode puts the stub value "0x0" and resets the timer when connected;
a disconnected live sensor does nothing. -/
def emitPhase (demoSteps : Nat) (now : ℚ) (st1 : SerialState)
    (sensor : Sensor) : SerialState :=
  if st1.SERIALIO_DEMO then
    match st1.demo_sensor sensor.sensorId with
    | some ds =>
      let rxb := ds.demo_data.getD ds.demo_data_idx 0
      { st1 with
          receiveQueue := st1.receiveQueue
            ++ [{ kind := .data, sensorId := sensor.sensorId, value := .num rxb,
                  counter := st1.counter, time := st1.sample_time }],
          sensor_timer := fun k =>
            if k = sensor.sensorId then now else st1.sensor_timer k,
          demo_sensor := fun k =>
            if k = sensor.sensorId then
              some { ds with demo_data_idx := advanceIdx demoSteps ds.demo_data_idx }
            else st1.demo_sensor k }
    | none => st1
  else
    if st1.connected then
      { st1 with
          receiveQueue := st1.receiveQueue
            ++ [{ kind := .data, sensorId := sensor.sensorId, value := .raw "0x0",
                  counter := st1.counter, time := st1.sample_time }],
          sensor_timer := fun k =>
            if k = sensor.sensorId then now else st1.sensor_timer k }
    else st1

/-- One iteration of the `for sensor in settings.SENSORS` loop of the
sample loop (lines 173–216): if the sensor's timer has expired,
increment the counter and record the cycle latency when the sensor is
the pacing sensor, then run the emission phase; otherwise do nothing.
All `timeit.default_timer()` readings of this tick are `now`, and
`sample_start` is the reading taken at the top of the tick. -/
def processSensor (demoSteps : Nat) (sample_counter_id : String)
    (sample_start now : ℚ) (st : SerialState) (sensor : Sensor) : SerialState :=
  let t := now - st.sensor_timer sensor.sensorId
  if t ≥ sensor.refresh then
    emitPhase demoSteps now
      (if sensor.sensorId = sample_counter_id then
        { st with counter := st.counter + 1, sample_time := now - sample_start }
      else st)
      sensor
  else st

/-- The control branch of the sample loop (lines 118–141): act only on
messages whose `isMine(myButtonId)` holds; a pressed LONG button is an
unimplemented serial reset (`pass` in the source); a pressed SHORT
button toggles demo mode, regenerating `demo_sensor` when the mode
turns on. -/
def handleControl (demoSteps : Nat) (sensors : List Sensor) (myButtonId : Nat)
    (st : SerialState) (cdata : ControlData) : SerialState :=
  if cdata.isMine myButtonId then
    if cdata.button && (cdata.duration == PressDuration.short) then
      if st.SERIALIO_DEMO then
        { st with SERIALIO_DEMO := false }
      else
        { st with SERIALIO_DEMO := true,
                  demo_sensor := setupDemoSensors demoSteps sensors }
    else st
  else st

/-- One iteration of the scheduler's `while True` loop: reset
`sample_time`, handle at most one drained control message, handle at
most one transmit request (whose body in the source only logs and so
has no state effect), then run the sensor loop. -/
def tick (demoSteps : Nat) (sensors : List Sensor) (myButtonId : Nat)
    (sample_counter_id : String) (cmsg : Option ControlData)
    (sample_start now : ℚ) (st : SerialState) : SerialState :=
  let st0 := { st with sample_time := 0 }
  let st1 :=
    match cmsg with
    | some cdata => handleControl demoSteps sensors myButtonId st0 cdata
    | none => st0
  sensors.foldl (processSensor demoSteps sample_counter_id sample_start now) st1

/-! ### The pacing sensor and the sample counter -/

theorem findPacingAux_append (a b : List Sensor) (acc : ℚ × String) :
    findPacingAux (a ++ b) acc = findPacingAux b (findPacingAux a acc) := by
  induction a generalizing acc with
  | nil => rfl
  | cons s rest ih =>
    simp only [List.cons_append, findPacingAux]
    exact ih _

theorem findPacingAux_fst_gt (p : ℚ) :
    ∀ (l : List Sensor) (acc : ℚ × String), p < acc.1 → (∀ s ∈ l, p < s.refresh) →
      p < (findPacingAux l acc).1
  | [], _, hacc, _ => hacc
  | s :: rest, acc, hacc, hl => by
    simp only [findPacingAux]
    apply findPacingAux_fst_gt p rest
    · by_cases h : s.refresh < acc.1
      · rw [if_pos h]
        exact hl s (List.mem_cons_self s rest)
      · rw [if_neg h]
        exact hacc
    · intro t ht
      exact hl t (List.mem_cons_of_mem s ht)

theorem findPacingAux_of_min :
    ∀ (l : List Sensor) (acc : ℚ × String), (∀ s ∈ l, acc.1 ≤ s.refresh) →
      findPacingAux l acc = acc
  | [], _, _ => rfl
  | s :: rest, acc, h => by
    simp only [findPacingAux]
    rw [if_neg (not_lt.mpr (h s (List.mem_cons_self s rest)))]
    exact findPacingAux_of_min rest acc (fun t ht => h t (List.mem_cons_of_mem s ht))

/-- With the registry split as `l₁ ++ p :: l₂` where `p` has minimal
refresh interval, every sensor before `p` a strictly larger one, and
`p.refresh` below the 99-second initialisation sentinel, the pacing
search returns `p`. -/
theorem findPacing_eq (l₁ l₂ : List Sensor) (p : Sensor)
    (hfirst : ∀ s ∈ l₁, p.refresh < s.refresh)
    (hmin : ∀ s ∈ l₂, p.refresh ≤ s.refresh)
    (h99 : p.refresh < 99) :
    findPacing (l₁ ++ p :: l₂) = (p.refresh, p.sensorId) := by
  unfold findPacing
  rw [findPacingAux_append]
  have hgt : p.refresh < (findPacingAux l₁ (99, "")).1 :=
    findPacingAux_fst_gt p.refresh l₁ (99, "") h99 hfirst
  simp only [findPacingAux]
  rw [if_pos hgt]
  exact findPacingAux_of_min l₂ (p.refresh, p.sensorId) hmin

theorem emitPhase_counter (demoSteps : Nat) (now : ℚ) (st1 : SerialState)
    (sensor : Sensor) :
    (emitPhase demoSteps now st1 sensor).counter = st1.counter := by
  unfold emitPhase
  split
  · split <;> rfl
  · split <;> rfl

theorem emitPhase_timer_ne (demoSteps : Nat) (now : ℚ) (st1 : SerialState)
    (sensor : Sensor) (k : String) (hk : k ≠ sensor.sensorId) :
    (emitPhase demoSteps now st1 sensor).sensor_timer k = st1.sensor_timer k := by
  unfold emitPhase
  split
  · split
    · simp [hk]
    · rfl
  · split
    · simp [hk]
    · rfl

theorem processSensor_counter (demoSteps : Nat) (pid : String) (ss now : ℚ)
    (st : SerialState) (sensor : Sensor) :
    (processSensor demoSteps pid ss now st sensor).counter
      = st.counter +
        (if sensor.sensorId = pid ∧ sensor.refresh ≤ now - st.sensor_timer sensor.sensorId
          then 1 else 0) := by
  simp only [processSensor]
  by_cases hdue : now - st.sensor_timer sensor.sensorId ≥ sensor.refresh
  · rw [if_pos hdue, emitPhase_counter]
    by_cases hid : sensor.sensorId = pid
    · rw [if_pos hid, if_pos ⟨hid, hdue⟩]
    · rw [if_neg hid, if_neg (fun h => hid h.1)]
      rfl
  · rw [if_neg hdue, if_neg (fun h => hdue h.2)]
    rfl

theorem processSensor_timer_ne (demoSteps : Nat) (pid : String) (ss now : ℚ)
    (st : SerialState) (sensor : Sensor) (k : String) (hk : k ≠ sensor.sensorId) :
    (processSensor demoSteps pid ss now st sensor).sensor_timer k
      = st.sensor_timer k := by
  simp only [processSensor]
  split
  · rw [emitPhase_timer_ne _ _ _ _ _ hk]
    split <;> rfl
  · rfl

theorem foldl_processSensor_counter (demoSteps : Nat) (pid : String) (ss now : ℚ) :
    ∀ (l : List Sensor) (st : SerialState), (∀ s ∈ l, s.sensorId ≠ pid) →
      (l.foldl (processSensor demoSteps pid ss now) st).counter = st.counter
  | [], _, _ => rfl
  | s :: rest, st, h => by
    simp only [List.foldl_cons]
    rw [foldl_processSensor_counter demoSteps pid ss now rest _
        (fun t ht => h t (List.mem_cons_of_mem s ht)),
      processSensor_counter,
      if_neg (fun hc => h s (List.mem_cons_self s rest) hc.1)]
    rfl

theorem foldl_processSensor_timer_ne (demoSteps : Nat) (pid : String) (ss now : ℚ)
    (k : String) :
    ∀ (l : List Sensor) (st : SerialState), (∀ s ∈ l, s.sensorId ≠ k) →
      (l.foldl (processSensor demoSteps pid ss now) st).sensor_timer k
        = st.sensor_timer k
  | [], _, _ => rfl
  | s :: rest, st, h => by
    simp only [List.foldl_cons]
    rw [foldl_processSensor_timer_ne demoSteps pid ss now k rest _
        (fun t ht => h t (List.mem_cons_of_mem s ht)),
      processSensor_timer_ne _ _ _ _ _ _ _ (fun hc => h s (List.mem_cons_self s rest) hc.symm)]

theorem handleControl_preserves (demoSteps : Nat) (sensors : List Sensor)
    (myButtonId : Nat) (st : SerialState) (cdata : ControlData) :
    (handleControl demoSteps sensors myButtonId st cdata).counter = st.counter
    ∧ (handleControl demoSteps sensors myButtonId st cdata).sensor_timer
        = st.sensor_timer := by
  unfold handleControl
  split
  · split
    · split <;> exact ⟨rfl, rfl⟩
    · exact ⟨rfl, rfl⟩
  · exact ⟨rfl, rfl⟩

/-- C1 (amended): with unique sensor ids and a registry whose minimal
refresh interval lies below the 99-second initialisation sentinel, the
pacing sensor is the first sensor in registry order with the minimal
refresh interval, and one scheduler tick increments the global sample
counter by exactly one when the pacing sensor's timer has expired and
by zero otherwise, independent of the other sensors. -/
theorem pacing_counter (demoSteps : Nat) (l₁ l₂ : List Sensor) (p : Sensor)
    (myButtonId : Nat) (cmsg : Option ControlData) (sample_start now : ℚ)
    (st : SerialState)
    (hids : (((l₁ ++ p :: l₂)).map Sensor.sensorId).Nodup)
    (hmin : ∀ s ∈ l₁ ++ p :: l₂, p.refresh ≤ s.refresh)
    (hfirst : ∀ s ∈ l₁, p.refresh < s.refresh)
    (h99 : p.refresh < 99) :
    (findPacing (l₁ ++ p :: l₂)).2 = p.sensorId
    ∧ (tick demoSteps (l₁ ++ p :: l₂) myButtonId (findPacing (l₁ ++ p :: l₂)).2 cmsg
        sample_start now st).counter
      = st.counter +
        (if p.refresh ≤ now - st.sensor_timer p.sensorId then 1 else 0) := by
  have hpac : findPacing (l₁ ++ p :: l₂) = (p.refresh, p.sensorId) :=
    findPacing_eq l₁ l₂ p hfirst
      (fun s hs => hmin s (List.mem_append_right l₁ (List.mem_cons_of_mem p hs))) h99
  rw [hpac]
  refine ⟨rfl, ?_⟩
  rw [List.map_append, List.map_cons] at hids
  obtain ⟨-, hids2, hdisj⟩ := List.nodup_append.mp hids
  have hne₁ : ∀ s ∈ l₁, s.sensorId ≠ p.sensorId := by
    intro s hs heq
    exact hdisj (List.mem_map_of_mem Sensor.sensorId hs)
      (heq ▸ List.mem_cons_self p.sensorId (l₂.map Sensor.sensorId))
  have hne₂ : ∀ s ∈ l₂, s.sensorId ≠ p.sensorId := by
    intro s hs heq
    exact (List.nodup_cons.mp hids2).1 (heq ▸ List.mem_map_of_mem Sensor.sensorId hs)
  obtain ⟨st1, htick, hc1, ht1⟩ :
      ∃ st1, tick demoSteps (l₁ ++ p :: l₂) myButtonId p.sensorId cmsg sample_start now st
          = (l₁ ++ p :: l₂).foldl (processSensor demoSteps p.sensorId sample_start now) st1
        ∧ st1.counter = st.counter ∧ st1.sensor_timer = st.sensor_timer := by
    cases cmsg with
    | none => exact ⟨_, rfl, rfl, rfl⟩
    | some cdata =>
      exact ⟨_, rfl,
        (handleControl_preserves demoSteps (l₁ ++ p :: l₂) myButtonId _ cdata).1,
        (handleControl_preserves demoSteps (l₁ ++ p :: l₂) myButtonId _ cdata).2⟩
  rw [htick, List.foldl_append, List.foldl_cons]
  rw [foldl_processSensor_counter demoSteps p.sensorId sample_start now l₂ _ hne₂,
    processSensor_counter]
  rw [foldl_processSensor_timer_ne demoSteps p.sensorId sample_start now p.sensorId l₁ _ hne₁,
    foldl_processSensor_counter demoSteps p.sensorId sample_start now l₁ _ hne₁,
    hc1, ht1]
  simp only [eq_self_iff_true, true_and]

/-- A quiescent scheduler state: live mode, disconnected, all timers at
zero, nothing emitted yet. -/
def idleState : SerialState :=
  { SERIALIO_DEMO := false, connected := false, demo_sensor := fun _ => none,
    sensor_timer := fun _ => 0, counter := 0, sample_time := 0, receiveQueue := [] }

/-- C1 counterexample: with a single sensor whose refresh interval is
100 s — not below the `highest_sample_rate = 99` sentinel —
`sample_counter_id` stays the empty string rather than the id of the
sensor with the smallest interval, and a tick in which that sensor's
timer has expired leaves the sample counter unchanged. -/
theorem pacing_counter_counterexample :
    (findPacing [⟨"A", 100, 0, 10⟩]).2 ≠ "A"
    ∧ (200 : ℚ) - idleState.sensor_timer "A" ≥ (100 : ℚ)
    ∧ (tick 4 [⟨"A", 100, 0, 10⟩] 0 (findPacing [⟨"A", 100, 0, 10⟩]).2 none 0 200
        idleState).counter = idleState.counter := by
  have hfp : findPacing [⟨"A", 100, 0, 10⟩] = (99, "") := by
    unfold findPacing findPacingAux
    rw [if_neg (by norm_num)]
    rfl
  refine ⟨by rw [hfp]; decide, by show (200 : ℚ) - 0 ≥ 100; norm_num, ?_⟩
  rw [hfp]
  show (tick 4 [⟨"A", 100, 0, 10⟩] 0 "" none 0 200 idleState).counter
    = idleState.counter
  unfold tick
  simp only [List.foldl_cons, List.foldl_nil]
  rw [processSensor_counter, if_neg (fun hc => by exact absurd hc.1 (by decide))]
  rfl

/-- Witness for `pacing_counter`: sensors A (0.01 s) and B (0.1 s); A
paces and a due tick increments the counter by one. -/
theorem pacing_counter_witness :
    (findPacing [⟨"A", 1/100, 0, 10⟩, ⟨"B", 1/10, 0, 10⟩]).2 = "A"
    ∧ (tick 4 [⟨"A", 1/100, 0, 10⟩, ⟨"B", 1/10, 0, 10⟩] 0
        (findPacing [⟨"A", 1/100, 0, 10⟩, ⟨"B", 1/10, 0, 10⟩]).2 none 0 200
        idleState).counter
      = idleState.counter + 1 := by
  have h := pacing_counter 4 [] [⟨"B", 1/10, 0, 10⟩] ⟨"A", 1/100, 0, 10⟩ 0 none 0 200
    idleState (by decide)
    (by
      intro s hs
      simp only [List.nil_append, List.mem_cons, List.not_mem_nil, or_false] at hs
      rcases hs with rfl | rfl
      · norm_num
      · norm_num)
    (by intro s hs; cases hs) (by norm_num)
  simp only [List.nil_append] at h
  refine ⟨h.1, ?_⟩
  rw [h.2]
  norm_num [idleState]

/-! ### Per-branch behaviour of a due sensor -/

theorem processSensor_demo_emit (demoSteps : Nat) (pid : String) (ss now : ℚ)
    (st : SerialState) (sensor : Sensor) (ds : DemoSeq)
    (hdue : now - st.sensor_timer sensor.sensorId ≥ sensor.refresh)
    (hdemo : st.SERIALIO_DEMO = true)
    (hds : st.demo_sensor sensor.sensorId = some ds) :
    (processSensor demoSteps pid ss now st sensor).receiveQueue
      = st.receiveQueue
        ++ [{ kind := .data, sensorId := sensor.sensorId,
              value := .num (ds.demo_data.getD ds.demo_data_idx 0),
              counter := st.counter + (if sensor.sensorId = pid then 1 else 0),
              time := if sensor.sensorId = pid then now - ss else st.sample_time }]
    ∧ (processSensor demoSteps pid ss now st sensor).sensor_timer sensor.sensorId = now
    ∧ (processSensor demoSteps pid ss now st sensor).demo_sensor sensor.sensorId
        = some { ds with demo_data_idx := advanceIdx demoSteps ds.demo_data_idx } := by
  simp only [processSensor]
  rw [if_pos hdue]
  by_cases hid : sensor.sensorId = pid
  · rw [hid] at hds
    simp [emitPhase, hid, hdemo, hds]
  · simp [emitPhase, hid, hdemo, hds]

theorem processSensor_live_emit (demoSteps : Nat) (pid : String) (ss now : ℚ)
    (st : SerialState) (sensor : Sensor)
    (hdue : now - st.sensor_timer sensor.sensorId ≥ sensor.refresh)
    (hdemo : st.SERIALIO_DEMO = false) (hconn : st.connected = true) :
    (processSensor demoSteps pid ss now st sensor).receiveQueue
      = st.receiveQueue
        ++ [{ kind := .data, sensorId := sensor.sensorId, value := .raw "0x0",
              counter := st.counter + (if sensor.sensorId = pid then 1 else 0),
              time := if sensor.sensorId = pid then now - ss else st.sample_time }]
    ∧ (processSensor demoSteps pid ss now st sensor).sensor_timer sensor.sensorId
        = now := by
  simp only [processSensor]
  rw [if_pos hdue]
  by_cases hid : sensor.sensorId = pid <;>
    simp [emitPhase, hid, hdemo, hconn]

theorem processSensor_disconnected (demoSteps : Nat) (pid : String) (ss now : ℚ)
    (st : SerialState) (sensor : Sensor)
    (hdemo : st.SERIALIO_DEMO = false) (hconn : st.connected = false) :
    (processSensor demoSteps pid ss now st sensor).receiveQueue = st.receiveQueue
    ∧ (processSensor demoSteps pid ss now st sensor).sensor_timer
        = st.sensor_timer := by
  simp only [processSensor]
  by_cases hdue : now - st.sensor_timer sensor.sensorId ≥ sensor.refresh
  · rw [if_pos hdue]
    by_cases hid : sensor.sensorId = pid <;>
      simp [emitPhase, hid, hdemo, hconn]
  · rw [if_neg hdue]
    exact ⟨rfl, rfl⟩

/-- C6 (amended): on a tick, a due sensor emits one DATA sample from
its demo sequence in demo mode, or the stub transport value when live
and connected, and in those two branches its timer is reset to `now`;
a live-but-disconnected due sensor emits nothing AND keeps its previous
timer — the source resets the timer only inside the demo and
`if connected` blocks. -/
theorem due_sensor_branches (demoSteps : Nat) (pid : String) (ss now : ℚ)
    (st : SerialState) (sensor : Sensor) (ds : DemoSeq)
    (hdue : now - st.sensor_timer sensor.sensorId ≥ sensor.refresh) :
    (st.SERIALIO_DEMO = true → st.demo_sensor sensor.sensorId = some ds →
      (processSensor demoSteps pid ss now st sensor).receiveQueue
        = st.receiveQueue
          ++ [{ kind := .data, sensorId := sensor.sensorId,
                value := .num (ds.demo_data.getD ds.demo_data_idx 0),
                counter := st.counter + (if sensor.sensorId = pid then 1 else 0),
                time := if sensor.sensorId = pid then now - ss else st.sample_time }]
      ∧ (processSensor demoSteps pid ss now st sensor).sensor_timer sensor.sensorId
          = now)
    ∧ (st.SERIALIO_DEMO = false → st.connected = true →
      (processSensor demoSteps pid ss now st sensor).receiveQueue
        = st.receiveQueue
          ++ [{ kind := .data, sensorId := sensor.sensorId, value := .raw "0x0",
                counter := st.counter + (if sensor.sensorId = pid then 1 else 0),
                time := if sensor.sensorId = pid then now - ss else st.sample_time }]
      ∧ (processSensor demoSteps pid ss now st sensor).sensor_timer sensor.sensorId
          = now)
    ∧ (st.SERIALIO_DEMO = false → st.connected = false →
      (processSensor demoSteps pid ss now st sensor).receiveQueue = st.receiveQueue
      ∧ (processSensor demoSteps pid ss now st sensor).sensor_timer sensor.sensorId
          = st.sensor_timer sensor.sensorId) := by
  refine ⟨fun hdemo hds => ?_, fun hdemo hconn => ?_, fun hdemo hconn => ?_⟩
  · exact ⟨(processSensor_demo_emit demoSteps pid ss now st sensor ds hdue hdemo hds).1,
      (processSensor_demo_emit demoSteps pid ss now st sensor ds hdue hdemo hds).2.1⟩
  · exact processSensor_live_emit demoSteps pid ss now st sensor hdue hdemo hconn
  · exact ⟨(processSensor_disconnected demoSteps pid ss now st sensor hdemo hconn).1,
      congrFun (processSensor_disconnected demoSteps pid ss now st sensor hdemo hconn).2
        sensor.sensorId⟩

/-- A demo-mode scheduler state over a single RPM sensor, cursor at 0. -/
def demoState : SerialState :=
  { SERIALIO_DEMO := true, connected := false,
    demo_sensor := setupDemoSensors 4 [⟨"RPM", 1/20, 0, 8000⟩],
    sensor_timer := fun _ => 0, counter := 0, sample_time := 0, receiveQueue := [] }

/-- Witness for `due_sensor_branches`: in demo mode a due sensor's
timer is reset to `now`. -/
theorem due_sensor_branches_witness :
    (1 : ℚ) - demoState.sensor_timer "RPM" ≥ (1 : ℚ)/20
    ∧ (processSensor 4 "RPM" 0 1 demoState ⟨"RPM", 1/20, 0, 8000⟩).sensor_timer "RPM"
        = 1 := by
  have hdue : (1 : ℚ) - demoState.sensor_timer "RPM" ≥ (1 : ℚ)/20 := by
    norm_num [demoState]
  have h := due_sensor_branches 4 "RPM" 0 1 demoState ⟨"RPM", 1/20, 0, 8000⟩
    (setupDemoSensor 4 ⟨"RPM", 1/20, 0, 8000⟩) hdue
  exact ⟨hdue, (h.1 rfl (by simp [demoState, setupDemoSensors, demoAssign])).2⟩

/-- C6 counterexample: a live-but-disconnected sensor that is due does
not get its timer reset to `now` — the claimed "timer reset in all
three branches" fails in the disconnected branch. -/
theorem due_sensor_branches_counterexample :
    idleState.SERIALIO_DEMO = false
    ∧ idleState.connected = false
    ∧ (5 : ℚ) - idleState.sensor_timer "A" ≥ (1 : ℚ)
    ∧ (processSensor 4 "" 0 5 idleState ⟨"A", 1, 0, 10⟩).sensor_timer "A" = 0
    ∧ (0 : ℚ) ≠ 5 := by
  refine ⟨rfl, rfl, by norm_num [idleState], ?_, by norm_num⟩
  have h := processSensor_disconnected 4 "" 0 5 idleState ⟨"A", 1, 0, 10⟩ rfl rfl
  rw [congrFun h.2 "A"]
  rfl

/-! ### Demo-mode toggling -/

theorem foldl_demoAssign_not_mem (demoSteps : Nat) :
    ∀ (l : List Sensor) (m : String → Option DemoSeq) (k : String),
      k ∉ l.map Sensor.sensorId →
      l.foldl (demoAssign demoSteps) m k = m k
  | [], _, _, _ => rfl
  | s :: rest, m, k, h => by
    simp only [List.map_cons, List.mem_cons, not_or] at h
    simp only [List.foldl_cons]
    rw [foldl_demoAssign_not_mem demoSteps rest _ k h.2]
    unfold demoAssign
    rw [if_neg h.1]

theorem setupDemoSensors_lookup_aux (demoSteps : Nat) :
    ∀ (sensors : List Sensor) (m : String → Option DemoSeq) (s : Sensor),
      (sensors.map Sensor.sensorId).Nodup → s ∈ sensors →
      sensors.foldl (demoAssign demoSteps) m s.sensorId
        = some (setupDemoSensor demoSteps s)
  | [], _, s, _, hs => absurd hs (List.not_mem_nil s)
  | t :: rest, m, s, hnd, hs => by
    simp only [List.map_cons, List.nodup_cons] at hnd
    simp only [List.foldl_cons]
    rcases List.mem_cons.mp hs with heq | hmem
    · subst heq
      rw [foldl_demoAssign_not_mem demoSteps rest _ s.sensorId hnd.1]
      unfold demoAssign
      rw [if_pos rfl]
    · exact setupDemoSensors_lookup_aux demoSteps rest _ s hnd.2 hmem

/-- With unique sensor ids, the regenerated `demo_sensor` dict maps each
sensor's id to that sensor's freshly generated sequence. -/
theorem setupDemoSensors_lookup (demoSteps : Nat) (sensors : List Sensor) (s : Sensor)
    (hnd : (sensors.map Sensor.sensorId).Nodup) (hs : s ∈ sensors) :
    setupDemoSensors demoSteps sensors s.sensorId
      = some (setupDemoSensor demoSteps s) :=
  setupDemoSensors_lookup_aux demoSteps sensors (fun _ => none) s hnd hs

/-- C8: a control message addressed to the serial worker carrying a
pressed button of SHORT duration class toggles demo mode; when the
toggle turns demo mode on, all demo sequences are regenerated with
cursor 0, so (for unique sensor ids) the next due demo emission of
every sensor carries that sensor's index-0 sequence value, not a
continuation of the previous cursor. -/
theorem short_press_toggles_demo (demoSteps : Nat) (sensors : List Sensor)
    (myButtonId : Nat) (st : SerialState) (cdata : ControlData)
    (hmine : cdata.isMine myButtonId = true)
    (hbtn : cdata.button = true) (hdur : cdata.duration = PressDuration.short) :
    (handleControl demoSteps sensors myButtonId st cdata).SERIALIO_DEMO
      = !st.SERIALIO_DEMO
    ∧ (st.SERIALIO_DEMO = false →
        (handleControl demoSteps sensors myButtonId st cdata).demo_sensor
          = setupDemoSensors demoSteps sensors
        ∧ ∀ s ∈ sensors, (sensors.map Sensor.sensorId).Nodup →
            (handleControl demoSteps sensors myButtonId st cdata).demo_sensor s.sensorId
              = some (setupDemoSensor demoSteps s)
            ∧ (setupDemoSensor demoSteps s).demo_data_idx = 0
            ∧ ∀ (pid : String) (ss now : ℚ),
                now - (handleControl demoSteps sensors myButtonId st cdata).sensor_timer
                    s.sensorId ≥ s.refresh →
                ∃ c t,
                  (processSensor demoSteps pid ss now
                      (handleControl demoSteps sensors myButtonId st cdata) s).receiveQueue
                    = (handleControl demoSteps sensors myButtonId st cdata).receiveQueue
                      ++ [{ kind := .data, sensorId := s.sensorId,
                            value := .num
                              ((setupDemoSensor demoSteps s).demo_data.getD 0 0),
                            counter := c, time := t }]) := by
  have hcollapse : handleControl demoSteps sensors myButtonId st cdata
      = if st.SERIALIO_DEMO then { st with SERIALIO_DEMO := false }
        else { st with SERIALIO_DEMO := true,
                       demo_sensor := setupDemoSensors demoSteps sensors } := by
    unfold handleControl
    rw [if_pos hmine, if_pos (by rw [hbtn, hdur]; rfl)]
  constructor
  · rw [hcollapse]
    cases hd : st.SERIALIO_DEMO <;> simp [hd]
  · intro hoff
    rw [hcollapse]
    simp only [hoff, Bool.false_eq_true, if_false]
    refine ⟨trivial, ?_⟩
    intro s hs hnd
    have hlook : setupDemoSensors demoSteps sensors s.sensorId
        = some (setupDemoSensor demoSteps s) :=
      setupDemoSensors_lookup demoSteps sensors s hnd hs
    refine ⟨hlook, rfl, ?_⟩
    intro pid ss now hdue
    have h := processSensor_demo_emit demoSteps pid ss now
      { st with SERIALIO_DEMO := true,
                demo_sensor := setupDemoSensors demoSteps sensors }
      s (setupDemoSensor demoSteps s) hdue rfl hlook
    exact ⟨_, _, h.1⟩

/-- Witness for `short_press_toggles_demo`: a SHORT press in live mode
enters demo mode with the RPM sequence regenerated at cursor 0. -/
theorem short_press_toggles_demo_witness :
    (handleControl 4 [⟨"RPM", 1/20, 0, 8000⟩] 2 idleState
        ⟨some 2, true, PressDuration.short⟩).SERIALIO_DEMO = true
    ∧ (handleControl 4 [⟨"RPM", 1/20, 0, 8000⟩] 2 idleState
        ⟨some 2, true, PressDuration.short⟩).demo_sensor "RPM"
      = some (setupDemoSensor 4 ⟨"RPM", 1/20, 0, 8000⟩) := by
  have h := short_press_toggles_demo 4 [⟨"RPM", 1/20, 0, 8000⟩] 2 idleState
    ⟨some 2, true, PressDuration.short⟩ rfl rfl rfl
  refine ⟨h.1, ?_⟩
  have h2 := (h.2 rfl).2 ⟨"RPM", 1/20, 0, 8000⟩ (List.mem_singleton.mpr rfl)
    (by simp)
  exact h2.1

/-! ## The coordinator loop (`PyCosworth.py`) -/

/-- The shared ECU state as touched by the coordinator loop: the
current- and previous-value dicts, the shared counter and cycle-time
doubles, and the shared integer error array. -/
structure EcuData where
  data : String → Option EcuValue
  data_previous : String → Option EcuValue
  counter : ℚ
  timer : ℚ
  errors : List ℤ

/-- Modelled from the spec: `libs/EcuData.py` is not under `src/`; per
the spec the state is created with every configured sensor
pre-registered at a null value (`set_sensor` is called once per sensor
at startup), the shared counter and timer start at zero, and the error
array is `Array('i', range(MAX_ERRORS))`. -/
def initEcuData (maxErrors : Nat) (sensors : List Sensor) : EcuData :=
  { data := sensors.foldl
      (fun m s => fun k => if k = s.sensorId then some EcuValue.null else m k)
      (fun _ => none),
    data_previous := sensors.foldl
      (fun m s => fun k => if k = s.sensorId then some EcuValue.null else m k)
      (fun _ => none),
    counter := 0,
    timer := 0,
    errors := (List.range maxErrors).map Int.ofNat }

/-- The receive branch of the coordinator loop (`PyCosworth.py`, lines
190–202): dispatch on the message kind — TYPE_ERROR only logs a
warning, TYPE_DATA moves the current value to `data_previous` and
installs the new value, any other kind only logs — and afterwards
always update the shared counter and cycle timer from the message. -/
def processMessage (ecu : EcuData) (d : SampleMsg) : EcuData :=
  let ecu1 :=
    match d.kind with
    | MsgKind.error => ecu
    | MsgKind.data =>
      { ecu with
          data_previous := fun k =>
            if k = d.sensorId then ecu.data d.sensorId else ecu.data_previous k,
          data := fun k =>
            if k = d.sensorId then some d.value else ecu.data k }
    | MsgKind.unknown => ecu
  { ecu1 with counter := (d.counter : ℚ), timer := d.time }

/-- The coordinator's receive branch applied to a whole drained message
sequence, in arrival order. -/
def processMessages (ecu : EcuData) (msgs : List SampleMsg) : EcuData :=
  msgs.foldl processMessage ecu

theorem processMessage_other_sensor (ecu : EcuData) (d : SampleMsg) (sid : String)
    (h : d.kind = MsgKind.data → d.sensorId ≠ sid) :
    (processMessage ecu d).data sid = ecu.data sid
    ∧ (processMessage ecu d).data_previous sid = ecu.data_previous sid := by
  cases hk : d.kind with
  | data =>
    have hne := (h hk).symm
    simp [processMessage, hk, hne]
  | error => simp [processMessage, hk]
  | unknown => simp [processMessage, hk]

/-- C3: after a DATA update the previous value of the updated sensor is
exactly the current value held immediately before; three successive
DATA values v1, v2, v3 for sensor X leave `previous[X] = v2` and
`current[X] = v3`; and the stored values of a sensor receiving no DATA
update are untouched — never fabricated. -/
theorem setSample_previous_current :
    (∀ (ecu : EcuData) (d : SampleMsg), d.kind = MsgKind.data →
      (processMessage ecu d).data_previous d.sensorId = ecu.data d.sensorId
      ∧ (processMessage ecu d).data d.sensorId = some d.value)
    ∧ (∀ (ecu : EcuData) (X : String) (v1 v2 v3 : EcuValue) (c1 c2 c3 : Nat)
        (t1 t2 t3 : ℚ),
      (processMessages ecu
        [⟨MsgKind.data, X, v1, c1, t1⟩, ⟨MsgKind.data, X, v2, c2, t2⟩,
          ⟨MsgKind.data, X, v3, c3, t3⟩]).data_previous X = some v2
      ∧ (processMessages ecu
        [⟨MsgKind.data, X, v1, c1, t1⟩, ⟨MsgKind.data, X, v2, c2, t2⟩,
          ⟨MsgKind.data, X, v3, c3, t3⟩]).data X = some v3)
    ∧ (∀ (ecu : EcuData) (msgs : List SampleMsg) (sid : String),
        (∀ d ∈ msgs, d.kind = MsgKind.data → d.sensorId ≠ sid) →
        (processMessages ecu msgs).data sid = ecu.data sid
        ∧ (processMessages ecu msgs).data_previous sid = ecu.data_previous sid) := by
  refine ⟨?_, ?_, ?_⟩
  · intro ecu d hk
    simp [processMessage, hk]
  · intro ecu X v1 v2 v3 c1 c2 c3 t1 t2 t3
    simp [processMessages, processMessage]
  · intro ecu msgs sid h
    induction msgs generalizing ecu with
    | nil => exact ⟨rfl, rfl⟩
    | cons d rest ih =>
      have hd := processMessage_other_sensor ecu d sid
        (h d (List.mem_cons_self d rest))
      have hr := ih (processMessage ecu d)
        (fun e he => h e (List.mem_cons_of_mem d he))
      simp only [processMessages, List.foldl_cons] at hr ⊢
      exact ⟨hr.1.trans hd.1, hr.2.trans hd.2⟩

/-- Witness for `setSample_previous_current`: a concrete DATA update
installs the value, and an ERROR message leaves another sensor's value
untouched. -/
theorem setSample_previous_current_witness :
    (processMessage (initEcuData 4 []) ⟨MsgKind.data, "RPM", EcuValue.num 5, 1, 0⟩).data "RPM"
      = some (EcuValue.num 5)
    ∧ (processMessages (initEcuData 4 []) [⟨MsgKind.error, "RPM", EcuValue.num 5, 1, 0⟩]).data "TPS"
      = (initEcuData 4 []).data "TPS" := by
  constructor
  · exact (setSample_previous_current.1 (initEcuData 4 [])
      ⟨MsgKind.data, "RPM", EcuValue.num 5, 1, 0⟩ rfl).2
  · refine (setSample_previous_current.2.2 (initEcuData 4 [])
      [⟨MsgKind.error, "RPM", EcuValue.num 5, 1, 0⟩] "TPS" ?_).1
    intro d hd hk
    rw [List.mem_singleton] at hd
    subst hd
    simp at hk

/-- C7 (amended): the receive branch is total over message kinds (no
kind is fatal); a DATA message updates the two value dicts as
`setSample` describes, while ERROR and unknown kinds only log and leave
both value dicts untouched; the error store is never modified by any
kind (`recordError` is not called by the coordinator); and the shared
counter and cycle-latency fields are always overwritten from the
message, whatever its kind. -/
theorem coordinator_dispatch (ecu : EcuData) (d : SampleMsg) :
    (processMessage ecu d).counter = (d.counter : ℚ)
    ∧ (processMessage ecu d).timer = d.time
    ∧ (processMessage ecu d).errors = ecu.errors
    ∧ (d.kind = MsgKind.error →
        (processMessage ecu d).data = ecu.data
        ∧ (processMessage ecu d).data_previous = ecu.data_previous)
    ∧ (d.kind = MsgKind.unknown →
        (processMessage ecu d).data = ecu.data
        ∧ (processMessage ecu d).data_previous = ecu.data_previous)
    ∧ (d.kind = MsgKind.data →
        (processMessage ecu d).data
          = (fun k => if k = d.sensorId then some d.value else ecu.data k)
        ∧ (processMessage ecu d).data_previous
          = (fun k => if k = d.sensorId then ecu.data d.sensorId
              else ecu.data_previous k)) := by
  cases hk : d.kind <;> simp [processMessage, hk]

/-- Witness for `coordinator_dispatch`: an unknown-kind message leaves
the value dicts alone while installing its counter field. -/
theorem coordinator_dispatch_witness :
    (processMessage (initEcuData 4 []) ⟨MsgKind.unknown, "RPM", EcuValue.num 5, 42, 7⟩).counter
      = 42
    ∧ (processMessage (initEcuData 4 []) ⟨MsgKind.unknown, "RPM", EcuValue.num 5, 42, 7⟩).data
      = (initEcuData 4 []).data := by
  have h := coordinator_dispatch (initEcuData 4 []) ⟨MsgKind.unknown, "RPM", EcuValue.num 5, 42, 7⟩
  exact ⟨by rw [h.1]; norm_num, (h.2.2.2.2.1 rfl).1⟩

/-- C7 counterexample: an ERROR-kind message does not touch the error
store (`recordError` is never called) yet overwrites the shared
counter, so the claim "non-DATA kinds leave counter/latency/error store
unchanged, ERROR appends to the error store" fails. -/
theorem coordinator_dispatch_counterexample :
    (initEcuData 4 []).counter = 0
    ∧ (processMessage (initEcuData 4 []) ⟨MsgKind.error, "RPM", EcuValue.num 5, 42, 7⟩).counter
        = 42
    ∧ (42 : ℚ) ≠ 0
    ∧ (processMessage (initEcuData 4 []) ⟨MsgKind.error, "RPM", EcuValue.num 5, 42, 7⟩).errors
        = (initEcuData 4 []).errors := by
  refine ⟨rfl, ?_, by norm_num, rfl⟩
  simp [processMessage]

/-! ## The startup block of `PyCosworth.py` (`__main__`) -/

/-- The queue-valued variable names of the startup block. -/
inductive QueueName where
  | serialControlQueue : QueueName
  | consoleControlQueue : QueueName
  | matrixControlQueue : QueueName
  | gpioActionQueue : QueueName
  | graphicsControlQueue : QueueName
deriving DecidableEq, Repr

/-- The per-worker enable flags of `settings` used by the startup
block. -/
structure StartupConfig where
  USE_CONSOLE : Bool
  USE_MATRIX : Bool
  USE_BUTTONS : Bool
  USE_GRAPHICS : Bool
deriving DecidableEq, Repr

/-- The names bound so far and the `messageQueues` broadcast list. -/
structure StartupEnv where
  bound : List QueueName
  messageQueues : List QueueName
deriving DecidableEq, Repr

/-- Evaluating a variable reference: a name with no prior assignment
raises `NameError`, exactly as in Python. -/
def evalName (env : StartupEnv) (n : QueueName) : Except String QueueName :=
  if n ∈ env.bound then Except.ok n else Except.error "NameError"

/-- The worker-startup block of `PyCosworth.py` (lines 108–158), as far
as queue bindings and the `messageQueues` broadcast list are concerned:
the serial queue is created and registered unconditionally; the console
branch creates `consoleControlQueue` but appends the *name*
`matrixControlQueue` (line 128) — which has not been assigned yet,
since the matrix branch only runs later; the matrix and graphics
branches create and register their own queues; the buttons branch
creates its action queue without registering it. -/
def startup (cfg : StartupConfig) : Except String StartupEnv := do
  let env : StartupEnv :=
    { bound := [QueueName.serialControlQueue],
      messageQueues := [QueueName.serialControlQueue] }
  let env ←
    if cfg.USE_CONSOLE then do
      let env := { env with bound := env.bound ++ [QueueName.consoleControlQueue] }
      let q ← evalName env QueueName.matrixControlQueue
      pure { env with messageQueues := env.messageQueues ++ [q] }
    else pure env
  let env ←
    if cfg.USE_MATRIX then do
      let env := { env with bound := env.bound ++ [QueueName.matrixControlQueue] }
      let q ← evalName env QueueName.matrixControlQueue
      pure { env with messageQueues := env.messageQueues ++ [q] }
    else pure env
  let env ←
    if cfg.USE_BUTTONS then
      pure { env with bound := env.bound ++ [QueueName.gpioActionQueue] }
    else pure env
  let env ←
    if cfg.USE_GRAPHICS then do
      let env := { env with bound := env.bound ++ [QueueName.graphicsControlQueue] }
      let q ← evalName env QueueName.graphicsControlQueue
      pure { env with messageQueues := env.messageQueues ++ [q] }
    else pure env
  pure env

/-- C10: whenever `USE_CONSOLE` is enabled, startup evaluates the
unbound name `matrixControlQueue` and dies with `NameError` before the
acquisition loop; and no successful startup ever registers the console
worker's own control queue for broadcasts. -/
theorem console_startup_name_error (cfg : StartupConfig)
    (h : cfg.USE_CONSOLE = true) :
    startup cfg = Except.error "NameError"
    ∧ ∀ (cfg2 : StartupConfig) (env : StartupEnv), startup cfg2 = Except.ok env →
        QueueName.consoleControlQueue ∉ env.messageQueues := by
  constructor
  · rcases cfg with ⟨c, m, b, g⟩
    simp only at h
    subst h
    rfl
  · intro cfg2 env heq
    rcases cfg2 with ⟨c, m, b, g⟩
    cases c
    · cases m <;> cases b <;> cases g <;>
        (have h2 := Except.ok.inj heq; subst h2; decide)
    · exact Except.noConfusion heq

/-- Witness for `console_startup_name_error` at the all-enabled
configuration. -/
theorem console_startup_name_error_witness :
    startup ⟨true, true, true, true⟩ = Except.error "NameError" :=
  (console_startup_name_error ⟨true, true, true, true⟩ rfl).1

/-- C2, evaluated at the defect: with the console worker enabled the
startup block crashes on the unbound `matrixControlQueue` (line 128 of
`PyCosworth.py`), so the broadcast loop that would copy each control
message to every registered worker queue is never reached and the
console inbox is never registered; with the console worker disabled,
the registered broadcast list holds exactly the serial, matrix and
graphics queues. -/
theorem console_broadcast_bug_eval :
    startup ⟨true, true, true, true⟩ = Except.error "NameError"
    ∧ startup ⟨false, true, false, true⟩
      = Except.ok
          { bound := [QueueName.serialControlQueue, QueueName.matrixControlQueue,
                      QueueName.graphicsControlQueue],
            messageQueues := [QueueName.serialControlQueue, QueueName.matrixControlQueue,
                              QueueName.graphicsControlQueue] } :=
  ⟨rfl, rfl⟩

end PyCosworth
